import Mathlib

/-!
Verification development for the SRT (sit-to-rise test) video scoring backend.

The JavaScript source is shallowly embedded:
* a JS number that may be non-finite (NaN / ±Infinity) is modelled as
  `Option ℝ` with `none` for the non-finite case; JS comparisons against
  NaN are false, which the `j*` helpers reproduce;
* `undefined` results of keypoint lookup are `Option Keypoint`;
* per-frame metric records `{angle, score}` keep the angle as a plain real
  (the angle helper never returns a non-finite value) and the score as an
  `Option ℝ`.
-/

namespace SRT

open Classical

noncomputable section

/-- Landmark name used by the right-side metric functions. -/
def rightShoulderName : String := "right_shoulder"

/-- Landmark name `right_hip`. -/
def rightHipName : String := "right_hip"

/-- Landmark name `right_knee`. -/
def rightKneeName : String := "right_knee"

/-- Landmark name `right_ankle`. -/
def rightAnkleName : String := "right_ankle"

/-- `KEYPOINT_CONFIDENCE_THRESHOLD` from `tensorflowService.js`. -/
def KEYPOINT_CONFIDENCE_THRESHOLD : ℝ := 0.3

/-- `MAX_SCORE` from `tensorflowService.js`. -/
def MAX_SCORE : ℝ := 5

/-- `SCORE_CONFIG.MIN_PHASE_SCORE`. -/
def MIN_PHASE_SCORE : ℝ := 1.5

/-- `SCORE_CONFIG.PENALTY_FACTOR`. -/
def PENALTY_FACTOR : ℝ := 0.6

/-- `SCORE_CONFIG.DEFAULT_HIP_DRIVE`. -/
def DEFAULT_HIP_DRIVE : ℝ := 0.3

/-- JS addition; NaN propagates. -/
def jadd : Option ℝ → Option ℝ → Option ℝ
  | some a, some b => some (a + b)
  | _, _ => none

/-- JS subtraction; NaN propagates. -/
def jsub : Option ℝ → Option ℝ → Option ℝ
  | some a, some b => some (a - b)
  | _, _ => none

/-- JS multiplication; NaN propagates. -/
def jmul : Option ℝ → Option ℝ → Option ℝ
  | some a, some b => some (a * b)
  | _, _ => none

/-- JS division; NaN propagates and a zero denominator yields a
non-finite result (Infinity or NaN), collapsed to `none`. -/
def jdiv : Option ℝ → Option ℝ → Option ℝ
  | some a, some b => if b = 0 then none else some (a / b)
  | _, _ => none

/-- JS `Math.abs`; NaN propagates. -/
def jabs : Option ℝ → Option ℝ
  | some a => some |a|
  | none => none

/-- JS `Math.min`; `Math.min(x, NaN)` is NaN. -/
def jmin : Option ℝ → Option ℝ → Option ℝ
  | some a, some b => some (min a b)
  | _, _ => none

/-- JS `Math.max`; `Math.max(x, NaN)` is NaN. -/
def jmax : Option ℝ → Option ℝ → Option ℝ
  | some a, some b => some (max a b)
  | _, _ => none

/-- JS `a <= c` for a possibly-NaN left operand: false on NaN. -/
def jle (a : Option ℝ) (c : ℝ) : Prop :=
  match a with
  | some v => v ≤ c
  | none => False

/-- A detected keypoint: name, pixel coordinates (possibly NaN) and
confidence score. -/
structure Keypoint where
  name : String
  x : Option ℝ
  y : Option ℝ
  score : ℝ

/-- A pose for one frame: keypoint list plus frame dimensions. -/
structure Pose where
  keypoints : List Keypoint
  width : ℝ
  height : ℝ

instance : Inhabited Keypoint := ⟨⟨rightHipName, none, none, 0⟩⟩

instance : Inhabited Pose := ⟨⟨[], 0, 0⟩⟩

/-- `pose.keypoints.find(kp => kp.name === n)`. -/
def findKp (pose : Pose) (n : String) : Option Keypoint :=
  pose.keypoints.find? (fun kp => kp.name == n)

/-- `kp?.score > KEYPOINT_CONFIDENCE_THRESHOLD` (false for `undefined`). -/
def confident : Option Keypoint → Prop
  | some kp => KEYPOINT_CONFIDENCE_THRESHOLD < kp.score
  | none => False

/-- x coordinate of a possibly-missing keypoint, as a JS number. -/
def kx (p : Option Keypoint) : Option ℝ := p.bind Keypoint.x

/-- y coordinate of a possibly-missing keypoint, as a JS number. -/
def ky (p : Option Keypoint) : Option ℝ := p.bind Keypoint.y

/-- Coordinate extractor used only under the `validatePoints` guard,
where the coordinate is known to be present. -/
def xv (p : Option Keypoint) : ℝ := (kx p).getD 0

/-- Coordinate extractor used only under the `validatePoints` guard. -/
def yv (p : Option Keypoint) : ℝ := (ky p).getD 0

/-- JS `Math.atan2`. -/
def atan2 (y x : ℝ) : ℝ :=
  if 0 < x then Real.arctan (y / x)
  else if x < 0 then
    (if 0 ≤ y then Real.arctan (y / x) + Real.pi
     else Real.arctan (y / x) - Real.pi)
  else if 0 < y then Real.pi / 2
  else if y < 0 then -(Real.pi / 2)
  else 0

/-- `validatePoints(p1, p2, p3)`: all three points present with numeric
coordinates, and the `p1`–`p2` and `p2`–`p3` distances both at least one
pixel. -/
def validatePoints (p1 p2 p3 : Option Keypoint) : Prop :=
  match p1, p2, p3 with
  | some q1, some q2, some q3 =>
    match q1.x, q1.y, q2.x, q2.y, q3.x, q3.y with
    | some x1, some y1, some x2, some y2, some x3, some y3 =>
      ¬ (Real.sqrt ((x2 - x1) ^ 2 + (y2 - y1) ^ 2) < 1 ∨
         Real.sqrt ((x3 - x2) ^ 2 + (y3 - y2) ^ 2) < 1)
    | _, _, _, _, _, _ => False
  | _, _, _ => False

/-- The arithmetic core of `calculateAngle` on validated coordinates. -/
def angleCore (x1 y1 x2 y2 x3 y3 : ℝ) : ℝ :=
  let radians := atan2 (y3 - y2) (x3 - x2) - atan2 (y1 - y2) (x1 - x2)
  let angle := |radians * 180 / Real.pi|
  min 360 (max 0 angle)

/-- `calculateAngle(p1, p2, p3)` from `tensorflowService.js`. -/
def calculateAngle (p1 p2 p3 : Option Keypoint) : ℝ :=
  if validatePoints p1 p2 p3 then
    angleCore (xv p1) (yv p1) (xv p2) (yv p2) (xv p3) (yv p3)
  else 0

/-- A per-frame metric record `{angle, score}`. -/
structure AngleScore where
  angle : ℝ
  score : Option ℝ

/-- The `{deviation, score}` record returned by `analyzeStability`. -/
structure StabilityScore where
  deviation : Option ℝ
  score : Option ℝ

/-- `analyzeSpinalAlignment(pose)`: presence-only guard. -/
def analyzeSpinalAlignment (pose : Pose) : AngleScore :=
  let shoulder := findKp pose rightShoulderName
  let hip := findKp pose rightHipName
  let knee := findKp pose rightKneeName
  if shoulder.isSome && hip.isSome && knee.isSome then
    let angle := calculateAngle shoulder hip knee
    ⟨angle, some (|180 - angle| / 180)⟩
  else ⟨0, some 0⟩

/-- `analyzeKneeFlexion(pose)`: presence-only guard. -/
def analyzeKneeFlexion (pose : Pose) : AngleScore :=
  let hip := findKp pose rightHipName
  let knee := findKp pose rightKneeName
  let ankle := findKp pose rightAnkleName
  if hip.isSome && knee.isSome && ankle.isSome then
    let angle := calculateAngle hip knee ankle
    ⟨angle, some (if 90 < angle then 1 else angle / 90)⟩
  else ⟨0, some 0⟩

/-- `analyzeKneeExtension(pose)`: presence-only guard. -/
def analyzeKneeExtension (pose : Pose) : AngleScore :=
  let hip := findKp pose rightHipName
  let knee := findKp pose rightKneeName
  let ankle := findKp pose rightAnkleName
  if hip.isSome && knee.isSome && ankle.isSome then
    let angle := calculateAngle hip knee ankle
    ⟨angle, some (if 160 < angle then 1 else angle / 160)⟩
  else ⟨0, some 0⟩

/-- `analyzeHipControl(pose)`: confidence-threshold guard. -/
def analyzeHipControl (pose : Pose) : AngleScore :=
  let shoulder := findKp pose rightShoulderName
  let hip := findKp pose rightHipName
  let knee := findKp pose rightKneeName
  if confident shoulder ∧ confident hip ∧ confident knee then
    let angle := calculateAngle shoulder hip knee
    let score := max 0 (min 1 (if angle < 30 then 1 else (90 - angle) / 60))
    ⟨angle, some score⟩
  else ⟨0, some 0⟩

/-- `analyzeStability(pose)`: presence-only guard. -/
def analyzeStability (pose : Pose) : StabilityScore :=
  let ankle := findKp pose rightAnkleName
  let hip := findKp pose rightHipName
  let shoulder := findKp pose rightShoulderName
  if ankle.isSome && hip.isSome && shoulder.isSome then
    let verticalDeviation :=
      jadd (jabs (jsub (kx shoulder) (kx hip))) (jabs (jsub (kx hip) (kx ankle)))
    ⟨verticalDeviation,
     jmax (some 0) (jsub (some 1) (jdiv verticalDeviation (some 100)))⟩
  else ⟨some 0, some 0⟩

/-- `isValidScore(score)`: finite and in `[0, 1]`. -/
def isValidScore (s : Option ℝ) : Prop :=
  match s with
  | some v => 0 ≤ v ∧ v ≤ 1
  | none => False

/-- `safeScore(score, defaultValue)`. -/
def safeScore (s : Option ℝ) (defaultValue : ℝ) : ℝ :=
  if isValidScore s then s.getD 0 else defaultValue

/-- `analyzeHipDrive(pose)`: confidence guard on all four landmarks,
early default when `shoulder.y - ankle.y <= 0`, then the weighted
combination guarded by `safeScore`. -/
def analyzeHipDrive (pose : Pose) : AngleScore :=
  let shoulder := findKp pose rightShoulderName
  let hip := findKp pose rightHipName
  let knee := findKp pose rightKneeName
  let ankle := findKp pose rightAnkleName
  if ¬ (confident shoulder ∧ confident hip ∧ confident knee ∧ confident ankle) then
    ⟨0, some DEFAULT_HIP_DRIVE⟩
  else
    let totalHeight := jsub (ky shoulder) (ky ankle)
    if jle totalHeight 0 then ⟨0, some DEFAULT_HIP_DRIVE⟩
    else
      let hipProgress :=
        jmax (some 0) (jmin (some 1)
          (jdiv (jsub (ky ankle) (ky hip)) (jsub (ky ankle) (ky shoulder))))
      let verticalAlignment := jdiv (jabs (jsub (kx hip) (kx ankle))) (some pose.width)
      let trunkAngle := calculateAngle shoulder hip knee
      let angleScore := max 0 (min 1 (trunkAngle / 180))
      let score := safeScore
        (jadd (jadd (jmul hipProgress (some 0.5)) (some (angleScore * 0.3)))
          (jmul (jsub (some 1) verticalAlignment) (some 0.2)))
        DEFAULT_HIP_DRIVE
      ⟨trunkAngle, some score⟩

/-- The `average` helper: `arr.reduce((a, b) => a + b, 0) / arr.length`. -/
def average (arr : List ℝ) : ℝ := arr.sum / (arr.length : ℝ)

/-- `safeAverage(scores, minRequired)` from `calculateComponentScores`:
keep only finite scores and substitute the 0.3 default when fewer than
`minRequired` remain. -/
def safeAverage (scores : List (Option ℝ)) (minRequired : Nat) : ℝ :=
  let validScores := scores.filterMap id
  if minRequired ≤ validScores.length then average validScores
  else DEFAULT_HIP_DRIVE

/-- Per-frame sitting metrics produced by `analyzeSittingPhase`. -/
structure SitFrameMetrics where
  kneeFlexion : AngleScore
  hipControl : AngleScore
  spinalAlignment : AngleScore

/-- Per-frame rising metrics produced by `analyzeRisingPhase`. -/
structure RiseFrameMetrics where
  kneeExtension : AngleScore
  hipDrive : AngleScore
  stability : StabilityScore

/-- `analyzeSittingPhase(poses)`. -/
def analyzeSittingPhase (poses : List Pose) : List SitFrameMetrics :=
  poses.map fun pose =>
    ⟨analyzeKneeFlexion pose, analyzeHipControl pose, analyzeSpinalAlignment pose⟩

/-- `analyzeRisingPhase(poses)`. -/
def analyzeRisingPhase (poses : List Pose) : List RiseFrameMetrics :=
  poses.map fun pose =>
    ⟨analyzeKneeExtension pose, analyzeHipDrive pose, analyzeStability pose⟩

/-- The three composite indices. -/
structure ComponentScores where
  posturalControl : ℝ
  balance : ℝ
  coordination : ℝ

/-- `calculateComponentScores(sittingPhase, risingPhase)`. -/
def calculateComponentScores (sittingPhase : List SitFrameMetrics)
    (risingPhase : List RiseFrameMetrics) : ComponentScores :=
  let posturalControl := max 0 (min 1 (safeAverage
    (sittingPhase.map (fun p => jmul p.spinalAlignment.score (some 1.3)) ++
     risingPhase.map (fun p => jmul p.stability.score (some 1.2))) 3))
  let balance := max 0 (min 1 (safeAverage
    (sittingPhase.map (fun p => jmul p.hipControl.score (some 1.4)) ++
     risingPhase.map (fun p => jmul p.stability.score (some 1.3))) 3))
  let coordination := max 0 (min 1 (safeAverage
    (sittingPhase.map (fun p => jmul p.kneeFlexion.score (some 1.1)) ++
     risingPhase.map (fun p => jmul p.kneeExtension.score (some 1.1)) ++
     risingPhase.map (fun p => jmul p.hipDrive.score (some 1.2))) 3))
  ⟨posturalControl, balance, coordination⟩

/-- Phase-level metric averages for the sitting phase. -/
structure SittingScores where
  kneeFlexion : ℝ
  hipControl : ℝ
  spinalAlignment : ℝ

/-- Phase-level metric averages for the rising phase. -/
structure RisingScores where
  kneeExtension : ℝ
  hipDrive : ℝ
  stability : ℝ

/-- The `{sitting, rising}` penalty record of `calculateSupportPenalty`. -/
structure SupportPenaltyRec where
  sitting : ℝ
  rising : ℝ

/-- The `{sitScore, riseScore, totalScore}` record. -/
structure PhaseScores where
  sitScore : ℝ
  riseScore : ℝ
  totalScore : ℝ

/-- `Number(x.toFixed(2))`: rounding to two decimal places. -/
def toFixed2 (x : ℝ) : ℝ := ((round (x * 100) : ℤ) : ℝ) / 100

/-- `calculatePhaseScores(sittingPhase, risingPhase, supportPenalty)`. -/
def calculatePhaseScores (sittingPhase : SittingScores) (risingPhase : RisingScores)
    (supportPenalty : SupportPenaltyRec) : PhaseScores :=
  let rawSitScore := max MIN_PHASE_SCORE
    ((sittingPhase.kneeFlexion * 0.35 + sittingPhase.hipControl * 0.35 +
      sittingPhase.spinalAlignment * 0.3) * MAX_SCORE)
  let rawRiseScore := max MIN_PHASE_SCORE
    ((risingPhase.kneeExtension * 0.3 + risingPhase.hipDrive * 0.4 +
      risingPhase.stability * 0.3) * MAX_SCORE)
  let sitScore := max MIN_PHASE_SCORE
    (min MAX_SCORE (rawSitScore - supportPenalty.sitting * PENALTY_FACTOR))
  let riseScore := max MIN_PHASE_SCORE
    (min MAX_SCORE (rawRiseScore - supportPenalty.rising * PENALTY_FACTOR))
  ⟨toFixed2 sitScore, toFixed2 riseScore, toFixed2 (min 10 (sitScore + riseScore))⟩

/-- The `"HAND"` support tag. -/
def HAND : String := "HAND"

/-- The `"KNEE"` support tag. -/
def KNEE : String := "KNEE"

/-- `SUPPORT_PENALTIES.HAND`. -/
def SUPPORT_PENALTY_HAND : ℝ := 1

/-- `SUPPORT_PENALTIES.KNEE`. -/
def SUPPORT_PENALTY_KNEE : ℝ := 0.5

/-- `calculatePhasePenalty(phaseSupports)`: the penalty from the union of
support tags seen in a phase. -/
def calculatePhasePenalty (phaseSupports : List (List String)) : ℝ :=
  let uniqueSupports := phaseSupports.flatten
  (if HAND ∈ uniqueSupports then SUPPORT_PENALTY_HAND else 0) +
    (if KNEE ∈ uniqueSupports then SUPPORT_PENALTY_KNEE else 0)

/-- `calculateSupportPenalty(supportPoints)`: split at the midpoint and
compute each half's penalty. -/
def calculateSupportPenalty (supportPoints : List (List String)) : SupportPenaltyRec :=
  let sittingSupports := supportPoints.take (supportPoints.length / 2)
  let risingSupports := supportPoints.drop (supportPoints.length / 2)
  ⟨calculatePhasePenalty sittingSupports, calculatePhasePenalty risingSupports⟩

/-- `minFramesPerPhase` from `analyzeSRTVideo`. -/
def minFramesPerPhase : Nat := 10

/-- The error message thrown by `analyzeSRTVideo` on too few frames. -/
def insufficientMsg : String := "Insufficient frames for analysis. Minimum required: 20"

/-- `Promise.all(frames.map(analyzePoseInFrame))`: one entry per sampled
frame, `none` when the detector returned no pose for that frame. -/
def collectPoseAnalyses (detections : List (Option Pose)) : List (Option Pose) :=
  detections

/-- Per-spec comparison definition (the source is the authority): the
pose sequence the spec describes, with undetected frames dropped. -/
def usablePoses (detections : List (Option Pose)) : List Pose :=
  detections.filterMap id

/-- The minimum-frames validation of `analyzeSRTVideo`, returning either
the insufficient-frames error or the sequence used downstream. -/
def runFrameCheck (poseAnalyses : List (Option Pose)) :
    Except String (List (Option Pose)) :=
  if poseAnalyses.length < minFramesPerPhase * 2 then Except.error insufficientMsg
  else Except.ok poseAnalyses

/-- Loop state of `detectPhaseTransition`. -/
structure PTState where
  transitionFrame : Nat
  maxHipMovement : ℝ
  maxHipY : WithBot ℝ
  lowestHipFrame : Nat

/-- The confidence guard of one `detectPhaseTransition` iteration. -/
def confidentTriple (poses : List Pose) (i : Nat) : Prop :=
  confident (findKp (poses.getD (i - 1) default) rightHipName) ∧
  confident (findKp (poses.getD i default) rightHipName) ∧
  confident (findKp (poses.getD (i + 1) default) rightHipName)

/-- JS `a > b` for a possibly-NaN left operand: false on NaN. -/
def jgt (a : Option ℝ) (b : ℝ) : Prop :=
  match a with
  | some v => b < v
  | none => False

/-- JS `a > b` against a running maximum initialised to `-Infinity`. -/
def jgtBot (a : Option ℝ) (b : WithBot ℝ) : Prop :=
  match a with
  | some v => b < (v : WithBot ℝ)
  | none => False

/-- One iteration of the `detectPhaseTransition` loop. -/
def ptStep (poses : List Pose) (s : PTState) (i : Nat) : PTState :=
  if confidentTriple poses i then
    let prevHip := findKp (poses.getD (i - 1) default) rightHipName
    let currentHip := findKp (poses.getD i default) rightHipName
    let nextHip := findKp (poses.getD (i + 1) default) rightHipName
    let movement := jabs (jsub (ky nextHip) (ky prevHip))
    let s1 :=
      if jgt movement s.maxHipMovement then
        { s with maxHipMovement := movement.getD 0, transitionFrame := i }
      else s
    if jgtBot (ky currentHip) s1.maxHipY then
      { s1 with maxHipY := (((ky currentHip).getD 0 : ℝ) : WithBot ℝ),
                lowestHipFrame := i }
    else s1
  else s

/-- `detectPhaseTransition(poses)`. -/
def detectPhaseTransition (poses : List Pose) : Nat :=
  let init : PTState := ⟨poses.length / 2, 0, ⊥, 0⟩
  let final := (List.range' 1 (poses.length - 2)).foldl (ptStep poses) init
  if ((final.lowestHipFrame : ℤ) - (final.transitionFrame : ℤ)).natAbs < 5 then
    final.lowestHipFrame
  else final.transitionFrame

/-- `poseAnalyses.slice(0, Math.max(minFramesPerPhase, transitionFrame))`. -/
def sittingSlice (poses : List Pose) (t : Nat) : List Pose :=
  poses.take (max minFramesPerPhase t)

/-- `poseAnalyses.slice(Math.min(length - minFramesPerPhase, transitionFrame))`. -/
def risingSlice (poses : List Pose) (t : Nat) : List Pose :=
  poses.drop (min (poses.length - minFramesPerPhase) t)

/-- `CONFIG.MAX_FRAMES` from the video service. -/
def MAX_FRAMES : Nat := 40

/-- `Math.ceil(a / b)` on non-negative integers. -/
def ceilDiv (a b : Nat) : Nat := (a + b - 1) / b

/-- Index sequence of the sampling loop
`for (let i = step; i < stop; i += step)`. -/
def strideIndices (stop step i : Nat) : List Nat :=
  if h : 0 < step ∧ i < stop then i :: strideIndices stop step (i + step)
  else []
termination_by stop - i
decreasing_by omega

/-- `sampleFrames(frames)` from the video service: identity up to
`MAX_FRAMES` frames, else first frame, every `step`-th intermediate
frame, and the last frame. -/
def sampleFrames {α : Type} [Inhabited α] (frames : List α) : List α :=
  if frames.length ≤ MAX_FRAMES then frames
  else
    let step := ceilDiv frames.length MAX_FRAMES
    [frames.getD 0 default] ++
      (strideIndices (frames.length - step) step step).map
        (fun i => frames.getD i default) ++
      [frames.getD (frames.length - 1) default]

/-- The hipDrive score formula exactly as the spec states it
(0.5·progress + 0.3·(trunkAngle/180) + 0.2·(1−misalignment)), written
from the spec's words for comparison with `analyzeHipDrive`. -/
def hipDriveSpecFormula (shoulderY hipY ankleY hipX ankleX poseWidth trunkAngle : ℝ) : ℝ :=
  0.5 * max 0 (min 1 ((ankleY - hipY) / (ankleY - shoulderY))) +
    0.3 * (trunkAngle / 180) + 0.2 * (1 - |hipX - ankleX| / poseWidth)

/-- Concrete upright shoulder keypoint (image y grows downward). -/
def upShoulderKp : Keypoint := ⟨rightShoulderName, some 0, some 0, 0.9⟩

/-- Concrete upright hip keypoint. -/
def upHipKp : Keypoint := ⟨rightHipName, some 0, some 50, 0.9⟩

/-- Concrete upright knee keypoint. -/
def upKneeKp : Keypoint := ⟨rightKneeName, some 0, some 80, 0.9⟩

/-- Concrete upright ankle keypoint. -/
def upAnkleKp : Keypoint := ⟨rightAnkleName, some 0, some 100, 0.9⟩

/-- A fully confident upright pose: shoulder above hip above knee above
ankle in image coordinates. -/
def upPose : Pose := ⟨[upShoulderKp, upHipKp, upKneeKp, upAnkleKp], 100, 100⟩

/-- Inverted-pose shoulder keypoint (shoulder y below ankle y). -/
def downShoulderKp : Keypoint := ⟨rightShoulderName, some 0, some 100, 0.9⟩

/-- Inverted-pose hip keypoint. -/
def downHipKp : Keypoint := ⟨rightHipName, some 0, some 50, 0.9⟩

/-- Inverted-pose knee keypoint. -/
def downKneeKp : Keypoint := ⟨rightKneeName, some 0, some 20, 0.9⟩

/-- Inverted-pose ankle keypoint. -/
def downAnkleKp : Keypoint := ⟨rightAnkleName, some 0, some 0, 0.9⟩

/-- A fully confident pose with `shoulder.y > ankle.y`, the only
orientation in which `analyzeHipDrive` reaches its weighted formula. -/
def downPose : Pose := ⟨[downShoulderKp, downHipKp, downKneeKp, downAnkleKp], 100, 100⟩

/-- Hip keypoint with confidence 0.1, below the 0.3 threshold. -/
def lowConfHipKp : Keypoint := ⟨rightHipName, some 0, some 0, 0.1⟩

/-- Knee keypoint with confidence 0.1. -/
def lowConfKneeKp : Keypoint := ⟨rightKneeName, some 0, some 50, 0.1⟩

/-- Ankle keypoint with confidence 0.1. -/
def lowConfAnkleKp : Keypoint := ⟨rightAnkleName, some 50, some 50, 0.1⟩

/-- A pose whose landmarks are all present but far below the confidence
threshold. -/
def lowConfPose : Pose := ⟨[lowConfHipKp, lowConfKneeKp, lowConfAnkleKp], 100, 100⟩

/-- First point of the C7 counterexample triple. -/
def farKpA : Keypoint := ⟨rightHipName, some 0, some 0, 0.9⟩

/-- Vertex point of the C7 counterexample triple, far from both others. -/
def farKpB : Keypoint := ⟨rightKneeName, some 100, some 0, 0.9⟩

/-- Third point of the C7 counterexample triple, within one pixel of the
first point but far from the vertex. -/
def nearKpC : Keypoint := ⟨rightAnkleName, some 0, some (1 / 2), 0.9⟩

/-- A detection list with 15 valid poses among 25 sampled frames. -/
def mixedDetections : List (Option Pose) :=
  List.replicate 15 (some (default : Pose)) ++ List.replicate 10 none

/-- Twenty poses with no keypoints at all. -/
def noHipPoses : List Pose := List.replicate 20 (default : Pose)

theorem jadd_some (a b : ℝ) : jadd (some a) (some b) = some (a + b) := rfl

theorem jsub_some (a b : ℝ) : jsub (some a) (some b) = some (a - b) := rfl

theorem jmul_some (a b : ℝ) : jmul (some a) (some b) = some (a * b) := rfl

theorem jabs_some (a : ℝ) : jabs (some a) = some |a| := rfl

theorem jmin_some (a b : ℝ) : jmin (some a) (some b) = some (min a b) := rfl

theorem jmax_some (a b : ℝ) : jmax (some a) (some b) = some (max a b) := rfl

theorem jdiv_some (a : ℝ) {b : ℝ} (h : b ≠ 0) :
    jdiv (some a) (some b) = some (a / b) := by
  simp [jdiv, h]

theorem jle_some (v c : ℝ) : jle (some v) c ↔ v ≤ c := Iff.rfl

theorem confident_some (kp : Keypoint) :
    confident (some kp) ↔ KEYPOINT_CONFIDENCE_THRESHOLD < kp.score := Iff.rfl

theorem safeScore_of_valid {v : ℝ} (d : ℝ) (h0 : 0 ≤ v) (h1 : v ≤ 1) :
    safeScore (some v) d = v := by
  unfold safeScore
  rw [if_pos]
  · rfl
  · exact ⟨h0, h1⟩

theorem toFixed2_mono {x y : ℝ} (h : x ≤ y) : toFixed2 x ≤ toFixed2 y := by
  unfold toFixed2
  have h2 : round (x * 100) ≤ round (y * 100) := by
    rw [round_eq, round_eq]
    exact Int.floor_mono (by linarith)
  have h3 : ((round (x * 100) : ℤ) : ℝ) ≤ ((round (y * 100) : ℤ) : ℝ) := by
    exact_mod_cast h2
  linarith

theorem toFixed2_int_div (n : ℤ) : toFixed2 ((n : ℝ) / 100) = (n : ℝ) / 100 := by
  unfold toFixed2
  rw [div_mul_cancel₀ _ (by norm_num : (100 : ℝ) ≠ 0), round_intCast]

theorem toFixed2_bounds (m n : ℤ) {lo hi x : ℝ} (hlo : lo = (m : ℝ) / 100)
    (hhi : hi = (n : ℝ) / 100) (h1 : lo ≤ x) (h2 : x ≤ hi) :
    lo ≤ toFixed2 x ∧ toFixed2 x ≤ hi := by
  constructor
  · calc lo = toFixed2 lo := by rw [hlo, toFixed2_int_div]
    _ ≤ toFixed2 x := toFixed2_mono h1
  · calc toFixed2 x ≤ toFixed2 hi := toFixed2_mono h2
    _ = hi := by rw [hhi, toFixed2_int_div]

/-- C5: the sit raw score is the 0.35/0.35/0.30 weighted sum times 5
floored at 1.5, the rise raw score the 0.30/0.40/0.30 weighted sum times
5 floored at 1.5, each penalized score is clamp(raw − penalty·0.6, 1.5, 5)
rounded to two decimals, the total is clamp(sit + rise, 2, 10) rounded to
two decimals, and consequently sitScore, riseScore ∈ [1.5, 5] and
totalScore ∈ [2, 10] for every input. -/
theorem C5_phase_score_formula_and_bounds (s : SittingScores) (r : RisingScores)
    (p : SupportPenaltyRec) :
    (calculatePhaseScores s r p).sitScore = toFixed2 (max MIN_PHASE_SCORE (min MAX_SCORE
        (max MIN_PHASE_SCORE ((s.kneeFlexion * 0.35 + s.hipControl * 0.35 +
          s.spinalAlignment * 0.3) * MAX_SCORE) - p.sitting * PENALTY_FACTOR))) ∧
    (calculatePhaseScores s r p).riseScore = toFixed2 (max MIN_PHASE_SCORE (min MAX_SCORE
        (max MIN_PHASE_SCORE ((r.kneeExtension * 0.3 + r.hipDrive * 0.4 +
          r.stability * 0.3) * MAX_SCORE) - p.rising * PENALTY_FACTOR))) ∧
    (calculatePhaseScores s r p).totalScore = toFixed2 (max 2 (min 10
        (max MIN_PHASE_SCORE (min MAX_SCORE
          (max MIN_PHASE_SCORE ((s.kneeFlexion * 0.35 + s.hipControl * 0.35 +
            s.spinalAlignment * 0.3) * MAX_SCORE) - p.sitting * PENALTY_FACTOR)) +
         max MIN_PHASE_SCORE (min MAX_SCORE
          (max MIN_PHASE_SCORE ((r.kneeExtension * 0.3 + r.hipDrive * 0.4 +
            r.stability * 0.3) * MAX_SCORE) - p.rising * PENALTY_FACTOR))))) ∧
    MIN_PHASE_SCORE ≤ (calculatePhaseScores s r p).sitScore ∧
    (calculatePhaseScores s r p).sitScore ≤ MAX_SCORE ∧
    MIN_PHASE_SCORE ≤ (calculatePhaseScores s r p).riseScore ∧
    (calculatePhaseScores s r p).riseScore ≤ MAX_SCORE ∧
    2 ≤ (calculatePhaseScores s r p).totalScore ∧
    (calculatePhaseScores s r p).totalScore ≤ 10 := by
  set A := max MIN_PHASE_SCORE (min MAX_SCORE
    (max MIN_PHASE_SCORE ((s.kneeFlexion * 0.35 + s.hipControl * 0.35 +
      s.spinalAlignment * 0.3) * MAX_SCORE) - p.sitting * PENALTY_FACTOR)) with hA
  set B := max MIN_PHASE_SCORE (min MAX_SCORE
    (max MIN_PHASE_SCORE ((r.kneeExtension * 0.3 + r.hipDrive * 0.4 +
      r.stability * 0.3) * MAX_SCORE) - p.rising * PENALTY_FACTOR)) with hB
  have hA1 : MIN_PHASE_SCORE ≤ A := by rw [hA]; exact le_max_left _ _
  have hB1 : MIN_PHASE_SCORE ≤ B := by rw [hB]; exact le_max_left _ _
  have hA2 : A ≤ MAX_SCORE := by
    rw [hA]
    exact max_le (by norm_num [MIN_PHASE_SCORE, MAX_SCORE]) (min_le_left _ _)
  have hB2 : B ≤ MAX_SCORE := by
    rw [hB]
    exact max_le (by norm_num [MIN_PHASE_SCORE, MAX_SCORE]) (min_le_left _ _)
  have hproj1 : (calculatePhaseScores s r p).sitScore = toFixed2 A := by
    rw [hA]; rfl
  have hproj2 : (calculatePhaseScores s r p).riseScore = toFixed2 B := by
    rw [hB]; rfl
  have hproj3 : (calculatePhaseScores s r p).totalScore = toFixed2 (min 10 (A + B)) := by
    rw [hA, hB]; rfl
  have hMIN : MIN_PHASE_SCORE = (1.5 : ℝ) := rfl
  have hsum : (2 : ℝ) ≤ min 10 (A + B) := by
    refine le_min (by norm_num) ?_
    rw [hMIN] at hA1 hB1
    linarith
  have htot : max 2 (min 10 (A + B)) = min 10 (A + B) := max_eq_right hsum
  have hsb := toFixed2_bounds 150 500
    (by norm_num [MIN_PHASE_SCORE]) (by norm_num [MAX_SCORE]) hA1 hA2
  have hrb := toFixed2_bounds 150 500
    (by norm_num [MIN_PHASE_SCORE]) (by norm_num [MAX_SCORE]) hB1 hB2
  have htb : (2 : ℝ) ≤ toFixed2 (min 10 (A + B)) ∧ toFixed2 (min 10 (A + B)) ≤ 10 :=
    toFixed2_bounds 200 1000 (by norm_num) (by norm_num) hsum (min_le_left _ _)
  refine ⟨hproj1, hproj2, ?_, ?_, ?_, ?_, ?_, ?_, ?_⟩
  · rw [hproj3, htot]
  · rw [hproj1]; exact hsb.1
  · rw [hproj1]; exact hsb.2
  · rw [hproj2]; exact hrb.1
  · rw [hproj2]; exact hrb.2
  · rw [hproj3]; exact htb.1
  · rw [hproj3]; exact htb.2

/-- C10: with phase metric averages fixed, adding a HAND support event to
a frame of either phase when that phase's frames previously contained no
HAND support does not increase that phase's final penalized, clamped,
rounded score — sitScore for a sitting-half frame and riseScore for a
rising-half frame; the phase penalty is the union of support tags
weighted HAND = 1.0 and KNEE = 0.5, additive up to 1.5 per phase. -/
theorem C10_support_penalty_monotone (s : SittingScores) (r : RisingScores)
    (sp : List (List String)) (i : Nat) :
    (i < sp.length / 2 → (∀ f ∈ sp.take (sp.length / 2), HAND ∉ f) →
      (calculatePhaseScores s r (calculateSupportPenalty
          (sp.set i (HAND :: sp.getD i [])))).sitScore ≤
        (calculatePhaseScores s r (calculateSupportPenalty sp)).sitScore) ∧
    (sp.length / 2 ≤ i → i < sp.length →
      (∀ f ∈ sp.drop (sp.length / 2), HAND ∉ f) →
      (calculatePhaseScores s r (calculateSupportPenalty
          (sp.set i (HAND :: sp.getD i [])))).riseScore ≤
        (calculatePhaseScores s r (calculateSupportPenalty sp)).riseScore) := by
  have hpf : PENALTY_FACTOR = (0.6 : ℝ) := rfl
  have hlen : (sp.set i (HAND :: sp.getD i [])).length = sp.length := by simp
  constructor
  · intro hi hnone
    have hilen : i < sp.length := lt_of_lt_of_le hi (Nat.div_le_self _ _)
    have hOldHand : HAND ∉ (sp.take (sp.length / 2)).flatten := by
      intro hmem
      rw [List.mem_flatten] at hmem
      obtain ⟨f, hf, hHf⟩ := hmem
      exact hnone f hf hHf
    have hOld : calculatePhasePenalty (sp.take (sp.length / 2)) ≤ 0.5 := by
      unfold calculatePhasePenalty
      dsimp only
      rw [if_neg hOldHand]
      split_ifs <;> norm_num [SUPPORT_PENALTY_KNEE]
    have hNewHand : HAND ∈
        ((sp.set i (HAND :: sp.getD i [])).take (sp.length / 2)).flatten := by
      rw [List.mem_flatten]
      refine ⟨HAND :: sp.getD i [], ?_, List.mem_cons_self _ _⟩
      have h3 : (((sp.set i (HAND :: sp.getD i [])).take (sp.length / 2))[i]?) =
          some (HAND :: sp.getD i []) := by
        rw [List.getElem?_take]
        simp [hi, List.getElem?_set, hilen]
      exact List.getElem?_mem h3
    have hNew : 1 ≤ calculatePhasePenalty
        ((sp.set i (HAND :: sp.getD i [])).take (sp.length / 2)) := by
      unfold calculatePhasePenalty
      dsimp only
      rw [if_pos hNewHand]
      split_ifs <;> norm_num [SUPPORT_PENALTY_HAND, SUPPORT_PENALTY_KNEE]
    unfold calculateSupportPenalty calculatePhaseScores
    rw [hlen]
    apply toFixed2_mono
    refine max_le_max (le_refl _) (min_le_min (le_refl _) ?_)
    rw [hpf]
    nlinarith [hOld, hNew]
  · intro hge hilen hnone
    have hOldHand : HAND ∉ (sp.drop (sp.length / 2)).flatten := by
      intro hmem
      rw [List.mem_flatten] at hmem
      obtain ⟨f, hf, hHf⟩ := hmem
      exact hnone f hf hHf
    have hOld : calculatePhasePenalty (sp.drop (sp.length / 2)) ≤ 0.5 := by
      unfold calculatePhasePenalty
      dsimp only
      rw [if_neg hOldHand]
      split_ifs <;> norm_num [SUPPORT_PENALTY_KNEE]
    have hNewHand : HAND ∈
        ((sp.set i (HAND :: sp.getD i [])).drop (sp.length / 2)).flatten := by
      rw [List.mem_flatten]
      refine ⟨HAND :: sp.getD i [], ?_, List.mem_cons_self _ _⟩
      have h3 : (((sp.set i (HAND :: sp.getD i [])).drop
          (sp.length / 2))[i - sp.length / 2]?) = some (HAND :: sp.getD i []) := by
        rw [List.getElem?_drop]
        have hidx : sp.length / 2 + (i - sp.length / 2) = i := by omega
        rw [hidx]
        simp [List.getElem?_set, hilen]
      exact List.getElem?_mem h3
    have hNew : 1 ≤ calculatePhasePenalty
        ((sp.set i (HAND :: sp.getD i [])).drop (sp.length / 2)) := by
      unfold calculatePhasePenalty
      dsimp only
      rw [if_pos hNewHand]
      split_ifs <;> norm_num [SUPPORT_PENALTY_HAND, SUPPORT_PENALTY_KNEE]
    unfold calculateSupportPenalty calculatePhaseScores
    rw [hlen]
    apply toFixed2_mono
    refine max_le_max (le_refl _) (min_le_min (le_refl _) ?_)
    rw [hpf]
    nlinarith [hOld, hNew]

/-- C10 witness: adding a HAND event to the sitting half of a two-frame
support list does not raise the sitting score, and adding one to the
rising half does not raise the rising score. -/
theorem C10_support_penalty_monotone_witness :
    ((calculatePhaseScores ⟨1, 1, 1⟩ ⟨1, 1, 1⟩ (calculateSupportPenalty
        ((([[], []] : List (List String))).set 0
          (HAND :: (([[], []] : List (List String))).getD 0 [])))).sitScore ≤
      (calculatePhaseScores ⟨1, 1, 1⟩ ⟨1, 1, 1⟩
        (calculateSupportPenalty ([[], []] : List (List String)))).sitScore) ∧
    ((calculatePhaseScores ⟨1, 1, 1⟩ ⟨1, 1, 1⟩ (calculateSupportPenalty
        ((([[], []] : List (List String))).set 1
          (HAND :: (([[], []] : List (List String))).getD 1 [])))).riseScore ≤
      (calculatePhaseScores ⟨1, 1, 1⟩ ⟨1, 1, 1⟩
        (calculateSupportPenalty ([[], []] : List (List String)))).riseScore) := by
  constructor
  · refine (C10_support_penalty_monotone ⟨1, 1, 1⟩ ⟨1, 1, 1⟩
      ([[], []] : List (List String)) 0).1 (by norm_num) ?_
    intro f hf
    simp only [List.length_cons, List.length_nil] at hf
    norm_num at hf
    subst hf
    exact List.not_mem_nil _
  · refine (C10_support_penalty_monotone ⟨1, 1, 1⟩ ⟨1, 1, 1⟩
      ([[], []] : List (List String)) 1).2 (by norm_num) (by norm_num) ?_
    intro f hf
    simp only [List.length_cons, List.length_nil] at hf
    norm_num at hf
    subst hf
    exact List.not_mem_nil _

/-- C3 (amended): the insufficient-frames error is raised exactly when
fewer than 20 sampled frames exist, counting every sampled frame whether
or not it yielded a detection, and the pose sequence is kept as sampled,
with undetected frames as empty entries rather than dropped. -/
theorem C3_frame_check (d : List (Option Pose)) :
    (d.length < minFramesPerPhase * 2 →
      runFrameCheck (collectPoseAnalyses d) = Except.error insufficientMsg) ∧
    (minFramesPerPhase * 2 ≤ d.length →
      runFrameCheck (collectPoseAnalyses d) = Except.ok d) ∧
    collectPoseAnalyses d = d := by
  refine ⟨fun h => ?_, fun h => ?_, rfl⟩
  · unfold runFrameCheck collectPoseAnalyses
    rw [if_pos h]
  · unfold runFrameCheck collectPoseAnalyses
    rw [if_neg (by omega)]

/-- C3 witness: fifteen sampled frames trigger the error. -/
theorem C3_frame_check_witness :
    runFrameCheck (collectPoseAnalyses (List.replicate 15 (some (default : Pose)))) =
      Except.error insufficientMsg := by
  exact (C3_frame_check _).1 (by simp [minFramesPerPhase])

/-- C3 counterexample: 25 sampled frames of which only 15 yielded a
detection do not trigger the error, and the sequence used downstream is
not the 15-pose dropped sequence the claim describes. -/
theorem C3_frame_check_cex :
    (usablePoses mixedDetections).length = 15 ∧
    (usablePoses mixedDetections).length < minFramesPerPhase * 2 ∧
    runFrameCheck (collectPoseAnalyses mixedDetections) = Except.ok mixedDetections ∧
    collectPoseAnalyses mixedDetections ≠ (usablePoses mixedDetections).map some := by
  have hu : (usablePoses mixedDetections).length = 15 := by
    unfold usablePoses mixedDetections
    rw [List.filterMap_append]
    simp
  refine ⟨hu, by rw [hu]; simp [minFramesPerPhase], ?_, ?_⟩
  · unfold runFrameCheck collectPoseAnalyses
    rw [if_neg]
    unfold mixedDetections
    simp [minFramesPerPhase]
  · intro hcontra
    have h1 : (collectPoseAnalyses mixedDetections).length = 25 := by
      unfold collectPoseAnalyses mixedDetections
      simp
    rw [hcontra] at h1
    rw [List.length_map, hu] at h1
    exact absurd h1 (by norm_num)

theorem strideIndices_length_le (stop step : Nat) :
    ∀ k i, stop ≤ i + k * step → (strideIndices stop step i).length ≤ k := by
  intro k
  induction k with
  | zero =>
    intro i h
    unfold strideIndices
    rw [dif_neg (by omega)]
    simp
  | succ n ih =>
    intro i h
    have hdist : (n + 1) * step = n * step + step := by ring
    unfold strideIndices
    by_cases hc : 0 < step ∧ i < stop
    · rw [dif_pos hc]
      have := ih (i + step) (by omega)
      simpa using Nat.succ_le_succ this
    · rw [dif_neg hc]
      simp

theorem le_mul_ceilDiv (a b : Nat) (hb : 0 < b) : a ≤ b * ceilDiv a b := by
  unfold ceilDiv
  have h1 := Nat.div_add_mod (a + b - 1) b
  have h2 : (a + b - 1) % b < b := Nat.mod_lt _ hb
  omega

/-- C8: the frame sampler returns the extracted list unchanged when its
length is at most 40, and otherwise returns at most 40 frames among which
the first and last extracted frames are both present, the intermediate
frames being taken at the uniform stride ceil(count/40). -/
theorem C8_sample_frames {α : Type} [Inhabited α] (frames : List α) :
    (frames.length ≤ MAX_FRAMES → sampleFrames frames = frames) ∧
    (MAX_FRAMES < frames.length →
      (sampleFrames frames).length ≤ MAX_FRAMES ∧
      frames.getD 0 default ∈ sampleFrames frames ∧
      frames.getD (frames.length - 1) default ∈ sampleFrames frames ∧
      sampleFrames frames =
        [frames.getD 0 default] ++
          (strideIndices (frames.length - ceilDiv frames.length MAX_FRAMES)
              (ceilDiv frames.length MAX_FRAMES)
              (ceilDiv frames.length MAX_FRAMES)).map
            (fun i => frames.getD i default) ++
          [frames.getD (frames.length - 1) default]) := by
  constructor
  · intro h
    unfold sampleFrames
    rw [if_pos h]
  · intro h
    have heq : sampleFrames frames =
        [frames.getD 0 default] ++
          (strideIndices (frames.length - ceilDiv frames.length MAX_FRAMES)
              (ceilDiv frames.length MAX_FRAMES)
              (ceilDiv frames.length MAX_FRAMES)).map
            (fun i => frames.getD i default) ++
          [frames.getD (frames.length - 1) default] := by
      unfold sampleFrames
      rw [if_neg (by omega)]
    have hcap : (strideIndices (frames.length - ceilDiv frames.length MAX_FRAMES)
        (ceilDiv frames.length MAX_FRAMES)
        (ceilDiv frames.length MAX_FRAMES)).length ≤ 38 := by
      apply strideIndices_length_le
      have h1 := le_mul_ceilDiv frames.length MAX_FRAMES (by norm_num [MAX_FRAMES])
      have h40 : MAX_FRAMES = 40 := rfl
      rw [h40] at h1 ⊢
      omega
    refine ⟨?_, ?_, ?_, heq⟩
    · rw [heq]
      simp only [List.length_append, List.length_map, List.length_cons,
        List.length_nil]
      have h40 : MAX_FRAMES = 40 := rfl
      omega
    · rw [heq]
      simp
    · rw [heq]
      simp

/-- C8 witness: a 100-frame list is downsampled to at most 40 frames
containing the first and last frames. -/
theorem C8_sample_frames_witness :
    (sampleFrames (List.range 100)).length ≤ MAX_FRAMES ∧
    (List.range 100).getD 0 default ∈ sampleFrames (List.range 100) ∧
    (List.range 100).getD ((List.range 100).length - 1) default ∈
      sampleFrames (List.range 100) := by
  have h := (C8_sample_frames (List.range 100)).2 (by simp [MAX_FRAMES])
  exact ⟨h.1, h.2.1, h.2.2.1⟩

theorem getD_replicate_default {α : Type} [Inhabited α] (n j : Nat) :
    (List.replicate n (default : α)).getD j default = default := by
  simp [List.getD, List.getElem?_replicate]
  split_ifs <;> rfl

theorem foldl_ptStep_id (poses : List Pose) (l : List Nat) (s : PTState)
    (h : ∀ i ∈ l, ¬ confidentTriple poses i) : l.foldl (ptStep poses) s = s := by
  induction l generalizing s with
  | nil => rfl
  | cons a t ih =>
    rw [List.foldl_cons]
    have hstep : ptStep poses s a = s := by
      unfold ptStep
      rw [if_neg (h a (List.mem_cons_self a t))]
    rw [hstep]
    exact ih s (fun i hi => h i (List.mem_cons_of_mem a hi))

/-- C9: for a pose sequence of length at least 20, the sitting slice
poses[0 .. max(10, transition)] and the rising slice
poses[min(length−10, transition) .. end] each contain at least 10 poses,
with the transition index produced by `detectPhaseTransition`, which
defaults to the midpoint when no consecutive hip triple is confident. -/
theorem C9_phase_slices (poses : List Pose)
    (h : minFramesPerPhase * 2 ≤ poses.length) :
    minFramesPerPhase ≤ (sittingSlice poses (detectPhaseTransition poses)).length ∧
    minFramesPerPhase ≤ (risingSlice poses (detectPhaseTransition poses)).length ∧
    ((∀ i ∈ List.range' 1 (poses.length - 2), ¬ confidentTriple poses i) →
      detectPhaseTransition poses = poses.length / 2) := by
  have hm : minFramesPerPhase = 10 := rfl
  refine ⟨?_, ?_, ?_⟩
  · unfold sittingSlice
    rw [List.length_take]
    omega
  · unfold risingSlice
    rw [List.length_drop]
    omega
  · intro hnone
    unfold detectPhaseTransition
    dsimp only
    rw [foldl_ptStep_id poses _ _ hnone]
    dsimp only
    rw [if_neg (by omega)]

/-- C9 witness: twenty poses with no confident hip keypoints give the
midpoint transition 10 and a sitting slice of at least 10 poses. -/
theorem C9_phase_slices_witness :
    minFramesPerPhase ≤
      (sittingSlice noHipPoses (detectPhaseTransition noHipPoses)).length ∧
    detectPhaseTransition noHipPoses = 10 := by
  have hlen : noHipPoses.length = 20 := by simp [noHipPoses]
  have h := C9_phase_slices noHipPoses (by rw [hlen]; norm_num [minFramesPerPhase])
  have hnone : ∀ i ∈ List.range' 1 (noHipPoses.length - 2),
      ¬ confidentTriple noHipPoses i := by
    intro i _
    unfold confidentTriple
    have hgd : ∀ j : Nat, noHipPoses.getD j default = (default : Pose) := by
      intro j
      unfold noHipPoses
      exact getD_replicate_default 20 j
    rw [hgd, hgd, hgd]
    intro hcontra
    exact hcontra.1
  have h3 := h.2.2 hnone
  rw [hlen] at h3
  exact ⟨h.1, h3⟩

theorem clamp01_mem (x : ℝ) : 0 ≤ max 0 (min 1 x) ∧ max 0 (min 1 x) ≤ 1 :=
  ⟨le_max_left _ _, max_le (by norm_num) (min_le_left _ _)⟩

theorem safeAverage_of_lt {l : List (Option ℝ)} {n : Nat}
    (h : (l.filterMap id).length < n) : safeAverage l n = DEFAULT_HIP_DRIVE := by
  unfold safeAverage
  dsimp only
  rw [if_neg (by omega)]

theorem safeAverage_of_ge {l : List (Option ℝ)} {n : Nat}
    (h : n ≤ (l.filterMap id).length) :
    safeAverage l n = average (l.filterMap id) := by
  unfold safeAverage
  dsimp only
  rw [if_pos h]

theorem clamp01_default : max 0 (min 1 DEFAULT_HIP_DRIVE) = DEFAULT_HIP_DRIVE := by
  rw [min_eq_right (by norm_num [DEFAULT_HIP_DRIVE]),
    max_eq_right (by norm_num [DEFAULT_HIP_DRIVE])]

/-- C6: each composite index is the clamped-to-[0,1] average of the
pooled per-frame weighted scores of its phase metrics (1.3·spinal,
1.2·stability for postural control; 1.4·hipControl, 1.3·stability for
balance; 1.1·kneeFlexion, 1.1·kneeExtension, 1.2·hipDrive for
coordination), using only valid (finite) per-frame scores, with the 0.3
default substituted when fewer than 3 valid samples exist; each index
lies in [0,1]. -/
theorem C6_component_scores (sp : List SitFrameMetrics) (rp : List RiseFrameMetrics) :
    (0 ≤ (calculateComponentScores sp rp).posturalControl ∧
      (calculateComponentScores sp rp).posturalControl ≤ 1) ∧
    (0 ≤ (calculateComponentScores sp rp).balance ∧
      (calculateComponentScores sp rp).balance ≤ 1) ∧
    (0 ≤ (calculateComponentScores sp rp).coordination ∧
      (calculateComponentScores sp rp).coordination ≤ 1) ∧
    (((sp.map (fun q => jmul q.spinalAlignment.score (some 1.3)) ++
        rp.map (fun q => jmul q.stability.score (some 1.2))).filterMap id).length < 3 →
      (calculateComponentScores sp rp).posturalControl = DEFAULT_HIP_DRIVE) ∧
    (3 ≤ ((sp.map (fun q => jmul q.spinalAlignment.score (some 1.3)) ++
        rp.map (fun q => jmul q.stability.score (some 1.2))).filterMap id).length →
      (calculateComponentScores sp rp).posturalControl =
        max 0 (min 1 (average ((sp.map (fun q => jmul q.spinalAlignment.score (some 1.3)) ++
          rp.map (fun q => jmul q.stability.score (some 1.2))).filterMap id)))) ∧
    (((sp.map (fun q => jmul q.hipControl.score (some 1.4)) ++
        rp.map (fun q => jmul q.stability.score (some 1.3))).filterMap id).length < 3 →
      (calculateComponentScores sp rp).balance = DEFAULT_HIP_DRIVE) ∧
    (3 ≤ ((sp.map (fun q => jmul q.hipControl.score (some 1.4)) ++
        rp.map (fun q => jmul q.stability.score (some 1.3))).filterMap id).length →
      (calculateComponentScores sp rp).balance =
        max 0 (min 1 (average ((sp.map (fun q => jmul q.hipControl.score (some 1.4)) ++
          rp.map (fun q => jmul q.stability.score (some 1.3))).filterMap id)))) ∧
    (((sp.map (fun q => jmul q.kneeFlexion.score (some 1.1)) ++
        rp.map (fun q => jmul q.kneeExtension.score (some 1.1)) ++
        rp.map (fun q => jmul q.hipDrive.score (some 1.2))).filterMap id).length < 3 →
      (calculateComponentScores sp rp).coordination = DEFAULT_HIP_DRIVE) ∧
    (3 ≤ ((sp.map (fun q => jmul q.kneeFlexion.score (some 1.1)) ++
        rp.map (fun q => jmul q.kneeExtension.score (some 1.1)) ++
        rp.map (fun q => jmul q.hipDrive.score (some 1.2))).filterMap id).length →
      (calculateComponentScores sp rp).coordination =
        max 0 (min 1 (average ((sp.map (fun q => jmul q.kneeFlexion.score (some 1.1)) ++
          rp.map (fun q => jmul q.kneeExtension.score (some 1.1)) ++
          rp.map (fun q => jmul q.hipDrive.score (some 1.2))).filterMap id)))) := by
  have hp : (calculateComponentScores sp rp).posturalControl =
      max 0 (min 1 (safeAverage
        (sp.map (fun q => jmul q.spinalAlignment.score (some 1.3)) ++
         rp.map (fun q => jmul q.stability.score (some 1.2))) 3)) := rfl
  have hb : (calculateComponentScores sp rp).balance =
      max 0 (min 1 (safeAverage
        (sp.map (fun q => jmul q.hipControl.score (some 1.4)) ++
         rp.map (fun q => jmul q.stability.score (some 1.3))) 3)) := rfl
  have hc : (calculateComponentScores sp rp).coordination =
      max 0 (min 1 (safeAverage
        (sp.map (fun q => jmul q.kneeFlexion.score (some 1.1)) ++
         rp.map (fun q => jmul q.kneeExtension.score (some 1.1)) ++
         rp.map (fun q => jmul q.hipDrive.score (some 1.2))) 3)) := rfl
  refine ⟨by rw [hp]; exact clamp01_mem _, by rw [hb]; exact clamp01_mem _,
    by rw [hc]; exact clamp01_mem _, ?_, ?_, ?_, ?_, ?_, ?_⟩
  · intro hlt
    rw [hp, safeAverage_of_lt hlt, clamp01_default]
  · intro hge
    rw [hp, safeAverage_of_ge hge]
  · intro hlt
    rw [hb, safeAverage_of_lt hlt, clamp01_default]
  · intro hge
    rw [hb, safeAverage_of_ge hge]
  · intro hlt
    rw [hc, safeAverage_of_lt hlt, clamp01_default]
  · intro hge
    rw [hc, safeAverage_of_ge hge]

/-- C6 witness: with no frames at all, every weighted list has fewer than
3 valid samples and each index is the 0.3 default, within [0,1]. -/
theorem C6_component_scores_witness :
    (calculateComponentScores [] []).posturalControl = DEFAULT_HIP_DRIVE ∧
    (calculateComponentScores [] []).balance = DEFAULT_HIP_DRIVE ∧
    (calculateComponentScores [] []).coordination = DEFAULT_HIP_DRIVE ∧
    0 ≤ (calculateComponentScores [] []).posturalControl := by
  have h := C6_component_scores [] []
  exact ⟨h.2.2.2.1 (by simp), h.2.2.2.2.2.1 (by simp),
    h.2.2.2.2.2.2.2.1 (by simp), h.1.1⟩

theorem atan2_zero_pos {y : ℝ} (hy : 0 < y) : atan2 y 0 = Real.pi / 2 := by
  unfold atan2
  rw [if_neg (lt_irrefl 0), if_neg (lt_irrefl 0), if_pos hy]

theorem atan2_zero_neg {y : ℝ} (hy : y < 0) : atan2 y 0 = -(Real.pi / 2) := by
  unfold atan2
  rw [if_neg (lt_irrefl 0), if_neg (lt_irrefl 0), if_neg (by linarith), if_pos hy]

theorem atan2_pos_x {y x : ℝ} (hx : 0 < x) : atan2 y x = Real.arctan (y / x) := by
  unfold atan2
  rw [if_pos hx]

theorem atan2_neg_x {y x : ℝ} (hx : x < 0) (hy : 0 ≤ y) :
    atan2 y x = Real.arctan (y / x) + Real.pi := by
  unfold atan2
  rw [if_neg (by linarith), if_pos hx, if_pos hy]

theorem angleCore_bounds (x1 y1 x2 y2 x3 y3 : ℝ) :
    0 ≤ angleCore x1 y1 x2 y2 x3 y3 ∧ angleCore x1 y1 x2 y2 x3 y3 ≤ 360 := by
  unfold angleCore
  dsimp only
  exact ⟨le_min (by norm_num) (le_max_left _ _), min_le_left _ _⟩

theorem angleCore_vertical_up {x y1 y2 y3 : ℝ} (h1 : y1 < y2) (h2 : y2 < y3) :
    angleCore x y1 x y2 x y3 = 180 := by
  unfold angleCore
  dsimp only
  rw [sub_self]
  rw [atan2_zero_pos (by linarith), atan2_zero_neg (by linarith)]
  have hrad : Real.pi / 2 - -(Real.pi / 2) = Real.pi := by ring
  rw [hrad]
  have hπ : Real.pi ≠ 0 := Real.pi_ne_zero
  have h180 : Real.pi * 180 / Real.pi = 180 := by
    field_simp
  rw [h180, abs_of_nonneg (by norm_num : (0:ℝ) ≤ 180),
    max_eq_right (by norm_num : (0:ℝ) ≤ 180),
    min_eq_right (by norm_num : (180:ℝ) ≤ 360)]

theorem angleCore_vertical_down {x y1 y2 y3 : ℝ} (h1 : y3 < y2) (h2 : y2 < y1) :
    angleCore x y1 x y2 x y3 = 180 := by
  unfold angleCore
  dsimp only
  rw [sub_self]
  rw [atan2_zero_neg (by linarith), atan2_zero_pos (by linarith)]
  have hrad : -(Real.pi / 2) - Real.pi / 2 = -Real.pi := by ring
  rw [hrad]
  have hπ : Real.pi ≠ 0 := Real.pi_ne_zero
  have h180 : -Real.pi * 180 / Real.pi = -180 := by
    field_simp
    ring
  rw [h180, abs_of_nonpos (by norm_num : (-180:ℝ) ≤ 0)]
  rw [show -(-180 : ℝ) = 180 by norm_num]
  rw [max_eq_right (by norm_num : (0:ℝ) ≤ 180),
    min_eq_right (by norm_num : (180:ℝ) ≤ 360)]

theorem angleCore_right_angle : angleCore 0 0 0 50 50 50 = 90 := by
  unfold angleCore
  dsimp only
  have e1 : (50:ℝ) - 50 = 0 := by norm_num
  have e2 : (50:ℝ) - 0 = 50 := by norm_num
  have e3 : (0:ℝ) - 50 = -50 := by norm_num
  have e4 : (0:ℝ) - 0 = 0 := by norm_num
  rw [e1, e2, e3, e4]
  rw [atan2_pos_x (by norm_num : (0:ℝ) < 50), atan2_zero_neg (by norm_num : (-50:ℝ) < 0)]
  rw [zero_div, Real.arctan_zero]
  have hrad : (0:ℝ) - -(Real.pi / 2) = Real.pi / 2 := by ring
  rw [hrad]
  have hπ : Real.pi ≠ 0 := Real.pi_ne_zero
  have h90 : Real.pi / 2 * 180 / Real.pi = 90 := by
    field_simp
    ring
  rw [h90, abs_of_nonneg (by norm_num : (0:ℝ) ≤ 90),
    max_eq_right (by norm_num : (0:ℝ) ≤ (90:ℝ)),
    min_eq_right (by norm_num : (90:ℝ) ≤ 360)]

theorem sqrt_eval {s v : ℝ} (hv : 0 ≤ v) (h : s = v ^ 2) : Real.sqrt s = v := by
  rw [h, Real.sqrt_sq hv]

theorem validatePoints_mk {n1 n2 n3 : String} {s1 s2 s3 x1 y1 x2 y2 x3 y3 : ℝ}
    (hd1 : 1 ≤ Real.sqrt ((x2 - x1) ^ 2 + (y2 - y1) ^ 2))
    (hd2 : 1 ≤ Real.sqrt ((x3 - x2) ^ 2 + (y3 - y2) ^ 2)) :
    validatePoints (some ⟨n1, some x1, some y1, s1⟩) (some ⟨n2, some x2, some y2, s2⟩)
      (some ⟨n3, some x3, some y3, s3⟩) := by
  unfold validatePoints
  push_neg
  exact ⟨hd1, hd2⟩

theorem calculateAngle_mk {n1 n2 n3 : String} {s1 s2 s3 x1 y1 x2 y2 x3 y3 : ℝ}
    (hv : validatePoints (some ⟨n1, some x1, some y1, s1⟩)
      (some ⟨n2, some x2, some y2, s2⟩) (some ⟨n3, some x3, some y3, s3⟩)) :
    calculateAngle (some ⟨n1, some x1, some y1, s1⟩) (some ⟨n2, some x2, some y2, s2⟩)
      (some ⟨n3, some x3, some y3, s3⟩) = angleCore x1 y1 x2 y2 x3 y3 := by
  unfold calculateAngle
  rw [if_pos hv]
  rfl

theorem validatePoints_isSome {p1 p2 p3 : Option Keypoint}
    (h : validatePoints p1 p2 p3) :
    (kx p1).isSome ∧ (ky p1).isSome ∧ (kx p2).isSome ∧ (ky p2).isSome ∧
    (kx p3).isSome ∧ (ky p3).isSome := by
  rcases p1 with _ | ⟨n1, ox1, oy1, s1⟩
  · exact absurd h (by rcases p2 with _ | q2 <;> rcases p3 with _ | q3 <;>
      simp [validatePoints])
  rcases p2 with _ | ⟨n2, ox2, oy2, s2⟩
  · exact absurd h (by rcases p3 with _ | q3 <;> simp [validatePoints])
  rcases p3 with _ | ⟨n3, ox3, oy3, s3⟩
  · exact absurd h (by simp [validatePoints])
  rcases ox1 with _ | x1 <;> rcases oy1 with _ | y1 <;> rcases ox2 with _ | x2 <;>
    rcases oy2 with _ | y2 <;> rcases ox3 with _ | x3 <;> rcases oy3 with _ | y3 <;>
    simp [validatePoints, kx, ky] at h ⊢

theorem validatePoints_dist {q1 q2 q3 : Keypoint} {x1 y1 x2 y2 x3 y3 : ℝ}
    (h : validatePoints (some q1) (some q2) (some q3))
    (h1 : q1.x = some x1) (h2 : q1.y = some y1) (h3 : q2.x = some x2)
    (h4 : q2.y = some y2) (h5 : q3.x = some x3) (h6 : q3.y = some y3) :
    1 ≤ Real.sqrt ((x2 - x1) ^ 2 + (y2 - y1) ^ 2) ∧
    1 ≤ Real.sqrt ((x3 - x2) ^ 2 + (y3 - y2) ^ 2) := by
  obtain ⟨n1, ox1, oy1, s1⟩ := q1
  obtain ⟨n2, ox2, oy2, s2⟩ := q2
  obtain ⟨n3, ox3, oy3, s3⟩ := q3
  dsimp only at h1 h2 h3 h4 h5 h6
  subst h1 h2 h3 h4 h5 h6
  simp only [validatePoints] at h
  push_neg at h
  exact h

/-- C7 (amended): calculateAngle always lies in [0, 360]; it returns
exactly 0 when the point triple fails validation, in particular when any
coordinate is non-numeric or when the p1–p2 or p2–p3 distance is below
one pixel (the p1–p3 distance is not checked). -/
theorem C7_angle_range_and_guards (p1 p2 p3 : Option Keypoint) :
    (0 ≤ calculateAngle p1 p2 p3 ∧ calculateAngle p1 p2 p3 ≤ 360) ∧
    (¬ validatePoints p1 p2 p3 → calculateAngle p1 p2 p3 = 0) ∧
    (kx p1 = none ∨ ky p1 = none ∨ kx p2 = none ∨ ky p2 = none ∨
        kx p3 = none ∨ ky p3 = none → calculateAngle p1 p2 p3 = 0) ∧
    (∀ x1 y1 x2 y2 x3 y3 : ℝ, kx p1 = some x1 → ky p1 = some y1 → kx p2 = some x2 →
      ky p2 = some y2 → kx p3 = some x3 → ky p3 = some y3 →
      (Real.sqrt ((x2 - x1) ^ 2 + (y2 - y1) ^ 2) < 1 ∨
       Real.sqrt ((x3 - x2) ^ 2 + (y3 - y2) ^ 2) < 1) →
      calculateAngle p1 p2 p3 = 0) := by
  have hzero : ¬ validatePoints p1 p2 p3 → calculateAngle p1 p2 p3 = 0 := by
    intro hnv
    unfold calculateAngle
    rw [if_neg hnv]
  refine ⟨?_, hzero, ?_, ?_⟩
  · unfold calculateAngle
    split_ifs
    · exact angleCore_bounds _ _ _ _ _ _
    · norm_num
  · intro hcase
    apply hzero
    intro hv
    have hs := validatePoints_isSome hv
    rcases hcase with h | h | h | h | h | h <;> rw [h] at hs <;> simp at hs
  · intro x1 y1 x2 y2 x3 y3 hx1 hy1 hx2 hy2 hx3 hy3 hdist
    apply hzero
    intro hv
    unfold kx at hx1 hx2 hx3
    unfold ky at hy1 hy2 hy3
    rw [Option.bind_eq_some] at hx1 hx2 hx3 hy1 hy2 hy3
    obtain ⟨q1, hp1, hq1x⟩ := hx1
    obtain ⟨q2, hp2, hq2x⟩ := hx2
    obtain ⟨q3, hp3, hq3x⟩ := hx3
    obtain ⟨q1b, hp1b, hq1y⟩ := hy1
    obtain ⟨q2b, hp2b, hq2y⟩ := hy2
    obtain ⟨q3b, hp3b, hq3y⟩ := hy3
    rw [hp1] at hp1b
    rw [hp2] at hp2b
    rw [hp3] at hp3b
    injection hp1b with e1
    injection hp2b with e2
    injection hp3b with e3
    subst e1 e2 e3
    subst hp1 hp2 hp3
    have hd := validatePoints_dist hv hq1x hq1y hq2x hq2y hq3x hq3y
    rcases hdist with hd1 | hd2
    · linarith [hd.1]
    · linarith [hd.2]

/-- C7 witness: a valid collinear triple gets an angle in [0, 360]; an
absent triple gets exactly 0. -/
theorem C7_angle_range_and_guards_witness :
    (0 ≤ calculateAngle (some upShoulderKp) (some upHipKp) (some upKneeKp) ∧
      calculateAngle (some upShoulderKp) (some upHipKp) (some upKneeKp) ≤ 360) ∧
    calculateAngle none none none = 0 := by
  refine ⟨(C7_angle_range_and_guards _ _ _).1, ?_⟩
  exact (C7_angle_range_and_guards none none none).2.1 (by simp [validatePoints])

/-- C7 counterexample: a triple whose p1–p3 distance is half a pixel
(below one pixel) but whose guarded p1–p2 and p2–p3 distances are large
yields a nonzero angle, refuting the any-pairwise-distance claim. -/
theorem C7_pairwise_distance_cex :
    farKpA.x = some 0 ∧ farKpA.y = some 0 ∧ farKpB.x = some 100 ∧
    farKpB.y = some 0 ∧ nearKpC.x = some 0 ∧ nearKpC.y = some (1 / 2) ∧
    Real.sqrt ((0 - 0 : ℝ) ^ 2 + (1 / 2 - 0 : ℝ) ^ 2) < 1 ∧
    calculateAngle (some farKpA) (some farKpB) (some nearKpC) ≠ 0 := by
  have hd13 : Real.sqrt ((0 - 0 : ℝ) ^ 2 + (1 / 2 - 0 : ℝ) ^ 2) < 1 := by
    rw [sqrt_eval (by norm_num : (0:ℝ) ≤ 1 / 2) (by norm_num)]
    norm_num
  have hv : validatePoints (some farKpA) (some farKpB) (some nearKpC) := by
    unfold farKpA farKpB nearKpC
    apply validatePoints_mk
    · rw [sqrt_eval (by norm_num : (0:ℝ) ≤ 100) (by norm_num)]
      norm_num
    · calc (1:ℝ) = Real.sqrt 1 := Real.sqrt_one.symm
      _ ≤ _ := Real.sqrt_le_sqrt (by norm_num)
  have hang : calculateAngle (some farKpA) (some farKpB) (some nearKpC) =
      angleCore 0 0 100 0 0 (1 / 2) := by
    unfold farKpA farKpB nearKpC at hv ⊢
    exact calculateAngle_mk hv
  have hpos : 0 < Real.arctan (1 / 200) := by
    rw [← Real.arctan_zero]
    exact Real.arctan_strictMono (by norm_num)
  have hπ : 0 < Real.pi := Real.pi_pos
  have hcore : angleCore 0 0 100 0 0 (1 / 2) =
      Real.arctan (1 / 200) * 180 / Real.pi := by
    unfold angleCore
    dsimp only
    have e1 : (1:ℝ) / 2 - 0 = 1 / 2 := by norm_num
    have e2 : (0:ℝ) - 100 = -100 := by norm_num
    have e3 : (0:ℝ) - 0 = 0 := by norm_num
    rw [e1, e2, e3]
    rw [atan2_neg_x (by norm_num : (-100:ℝ) < 0) (by norm_num : (0:ℝ) ≤ 1 / 2)]
    rw [atan2_neg_x (by norm_num : (-100:ℝ) < 0) (le_refl 0)]
    rw [zero_div, Real.arctan_zero]
    have e4 : (1:ℝ) / 2 / (-100) = -(1 / 200) := by norm_num
    rw [e4, Real.arctan_neg]
    have e5 : -Real.arctan (1 / 200) + Real.pi - (0 + Real.pi) =
        -Real.arctan (1 / 200) := by ring
    rw [e5]
    have habs : |(-Real.arctan (1 / 200)) * 180 / Real.pi| =
        Real.arctan (1 / 200) * 180 / Real.pi := by
      have e6 : (-Real.arctan (1 / 200)) * 180 / Real.pi =
          -(Real.arctan (1 / 200) * 180 / Real.pi) := by ring
      rw [e6, abs_neg, abs_of_nonneg]
      have h1 : 0 < Real.arctan (1 / 200) * 180 := by positivity
      positivity
    rw [habs]
    have hval_pos : 0 ≤ Real.arctan (1 / 200) * 180 / Real.pi := by positivity
    have hlt : Real.arctan (1 / 200) < Real.pi / 2 := Real.arctan_lt_pi_div_two _
    have hval_lt : Real.arctan (1 / 200) * 180 / Real.pi ≤ 360 := by
      have h2 : Real.arctan (1 / 200) * 180 / Real.pi < Real.pi / 2 * 180 / Real.pi := by
        gcongr
      have h90 : Real.pi / 2 * 180 / Real.pi = 90 := by
        field_simp
        ring
      rw [h90] at h2
      linarith
    rw [max_eq_right hval_pos, min_eq_right hval_lt]
  refine ⟨rfl, rfl, rfl, rfl, rfl, rfl, hd13, ?_⟩
  rw [hang, hcore]
  have hfinal : 0 < Real.arctan (1 / 200) * 180 / Real.pi := by positivity
  exact ne_of_gt hfinal

/-- C4 (amended): kneeFlexion, kneeExtension, spinalAlignment and
stability return their zero record whenever a required landmark is absent
from the pose, but use any present keypoint regardless of confidence;
only hipControl (among the five) additionally treats a sub-threshold
keypoint as unavailable. -/
theorem C4_landmark_guards (pose : Pose) :
    (findKp pose rightHipName = none ∨ findKp pose rightKneeName = none ∨
        findKp pose rightAnkleName = none →
      analyzeKneeFlexion pose = ⟨0, some 0⟩ ∧ analyzeKneeExtension pose = ⟨0, some 0⟩) ∧
    (findKp pose rightShoulderName = none ∨ findKp pose rightHipName = none ∨
        findKp pose rightKneeName = none →
      analyzeSpinalAlignment pose = ⟨0, some 0⟩) ∧
    (findKp pose rightAnkleName = none ∨ findKp pose rightHipName = none ∨
        findKp pose rightShoulderName = none →
      analyzeStability pose = ⟨some 0, some 0⟩) ∧
    (¬ (confident (findKp pose rightShoulderName) ∧ confident (findKp pose rightHipName) ∧
        confident (findKp pose rightKneeName)) →
      analyzeHipControl pose = ⟨0, some 0⟩) := by
  refine ⟨?_, ?_, ?_, ?_⟩
  · intro hcase
    constructor <;>
      rcases hcase with h | h | h <;>
      simp [analyzeKneeFlexion, analyzeKneeExtension, h]
  · intro hcase
    rcases hcase with h | h | h <;> simp [analyzeSpinalAlignment, h]
  · intro hcase
    rcases hcase with h | h | h <;> simp [analyzeStability, h]
  · intro hcase
    simp only [analyzeHipControl]
    rw [if_neg hcase]

/-- C4 witness: a pose with no keypoints at all gets the zero record from
each of the five metric functions. -/
theorem C4_landmark_guards_witness :
    analyzeKneeFlexion (default : Pose) = ⟨0, some 0⟩ ∧
    analyzeKneeExtension (default : Pose) = ⟨0, some 0⟩ ∧
    analyzeSpinalAlignment (default : Pose) = ⟨0, some 0⟩ ∧
    analyzeStability (default : Pose) = ⟨some 0, some 0⟩ ∧
    analyzeHipControl (default : Pose) = ⟨0, some 0⟩ := by
  have h := C4_landmark_guards (default : Pose)
  have hnone : findKp (default : Pose) rightHipName = none := rfl
  obtain ⟨hfx, hext⟩ := h.1 (Or.inl hnone)
  refine ⟨hfx, hext, h.2.1 (Or.inr (Or.inl hnone)), h.2.2.1 (Or.inr (Or.inl hnone)), ?_⟩
  refine h.2.2.2 (fun hc => ?_)
  rw [hnone] at hc
  exact hc.2.1

/-- C4 counterexample: a pose whose landmarks are all present with
confidence 0.1 (below the 0.3 threshold) still gets score 1 from
kneeFlexion, not the claimed 0, because kneeFlexion checks only
presence. -/
theorem C4_subthreshold_cex :
    (∀ kp ∈ lowConfPose.keypoints, kp.score ≤ KEYPOINT_CONFIDENCE_THRESHOLD) ∧
    (analyzeKneeFlexion lowConfPose).score = some 1 := by
  constructor
  · intro kp hkp
    have hkps : lowConfPose.keypoints = [lowConfHipKp, lowConfKneeKp, lowConfAnkleKp] := rfl
    rw [hkps] at hkp
    fin_cases hkp <;>
      norm_num [lowConfHipKp, lowConfKneeKp, lowConfAnkleKp, KEYPOINT_CONFIDENCE_THRESHOLD]
  · have hfh : findKp lowConfPose rightHipName = some lowConfHipKp := rfl
    have hfk : findKp lowConfPose rightKneeName = some lowConfKneeKp := rfl
    have hfa : findKp lowConfPose rightAnkleName = some lowConfAnkleKp := rfl
    have hv : validatePoints (some lowConfHipKp) (some lowConfKneeKp)
        (some lowConfAnkleKp) := by
      unfold lowConfHipKp lowConfKneeKp lowConfAnkleKp
      apply validatePoints_mk
      · rw [sqrt_eval (by norm_num : (0:ℝ) ≤ 50) (by norm_num)]
        norm_num
      · rw [sqrt_eval (by norm_num : (0:ℝ) ≤ 50) (by norm_num)]
        norm_num
    have hang : calculateAngle (some lowConfHipKp) (some lowConfKneeKp)
        (some lowConfAnkleKp) = 90 := by
      unfold lowConfHipKp lowConfKneeKp lowConfAnkleKp at hv ⊢
      rw [calculateAngle_mk hv]
      exact angleCore_right_angle
    simp only [analyzeKneeFlexion, hfh, hfk, hfa, Option.isSome_some, Bool.and_self,
      if_true]
    rw [hang]
    norm_num

theorem hipDrive_not_confident (pose : Pose)
    (h : ¬ (confident (findKp pose rightShoulderName) ∧
      confident (findKp pose rightHipName) ∧ confident (findKp pose rightKneeName) ∧
      confident (findKp pose rightAnkleName))) :
    analyzeHipDrive pose = ⟨0, some DEFAULT_HIP_DRIVE⟩ := by
  simp only [analyzeHipDrive]
  rw [if_pos h]

theorem hipDrive_nonpos_height (pose : Pose) (sy ay : ℝ)
    (hconf : confident (findKp pose rightShoulderName) ∧
      confident (findKp pose rightHipName) ∧ confident (findKp pose rightKneeName) ∧
      confident (findKp pose rightAnkleName))
    (hsy : ky (findKp pose rightShoulderName) = some sy)
    (hay : ky (findKp pose rightAnkleName) = some ay)
    (hle : sy - ay ≤ 0) :
    analyzeHipDrive pose = ⟨0, some DEFAULT_HIP_DRIVE⟩ := by
  simp only [analyzeHipDrive]
  rw [if_neg (not_not_intro hconf), hsy, hay, jsub_some]
  rw [if_pos ((jle_some _ _).mpr hle)]

theorem hipDrive_formula_case (pose : Pose) (sy ay hy hx ax : ℝ)
    (hconf : confident (findKp pose rightShoulderName) ∧
      confident (findKp pose rightHipName) ∧ confident (findKp pose rightKneeName) ∧
      confident (findKp pose rightAnkleName))
    (hsy : ky (findKp pose rightShoulderName) = some sy)
    (hay : ky (findKp pose rightAnkleName) = some ay)
    (hhy : ky (findKp pose rightHipName) = some hy)
    (hhx : kx (findKp pose rightHipName) = some hx)
    (hax : kx (findKp pose rightAnkleName) = some ax)
    (hpos : 0 < sy - ay) (hw : pose.width ≠ 0) :
    analyzeHipDrive pose =
      ⟨calculateAngle (findKp pose rightShoulderName) (findKp pose rightHipName)
          (findKp pose rightKneeName),
       some (safeScore (some (max 0 (min 1 ((ay - hy) / (ay - sy))) * 0.5 +
          max 0 (min 1 (calculateAngle (findKp pose rightShoulderName)
            (findKp pose rightHipName) (findKp pose rightKneeName) / 180)) * 0.3 +
          (1 - |hx - ax| / pose.width) * 0.2)) DEFAULT_HIP_DRIVE)⟩ := by
  have hden : ay - sy ≠ 0 := by
    intro hcontra
    rw [sub_eq_zero] at hcontra
    rw [hcontra] at hpos
    simp at hpos
  simp only [analyzeHipDrive]
  rw [if_neg (not_not_intro hconf), hsy, hay, hhy, hhx, hax, jsub_some]
  rw [if_neg (by rw [jle_some]; linarith)]
  rw [jsub_some, jsub_some, jdiv_some _ hden, jmin_some, jmax_some, jsub_some,
    jabs_some, jdiv_some _ hw, jmul_some, jsub_some, jmul_some, jadd_some, jadd_some]

/-- C2: for every pose in which all four right-side landmarks are
confident but the shoulder y coordinate is less than the ankle y
coordinate (the normal upright orientation in image coordinates),
analyzeHipDrive returns the fixed default ⟨angle 0, score 0.3⟩ without
evaluating the weighted formula, because its guard tests
shoulder.y − ankle.y ≤ 0. -/
theorem C2_upright_pose_default (pose : Pose) (sy ay : ℝ)
    (hconf : confident (findKp pose rightShoulderName) ∧
      confident (findKp pose rightHipName) ∧ confident (findKp pose rightKneeName) ∧
      confident (findKp pose rightAnkleName))
    (hsy : ky (findKp pose rightShoulderName) = some sy)
    (hay : ky (findKp pose rightAnkleName) = some ay)
    (hlt : sy < ay) :
    analyzeHipDrive pose = ⟨0, some DEFAULT_HIP_DRIVE⟩ :=
  hipDrive_nonpos_height pose sy ay hconf hsy hay (by linarith)

theorem upPose_confident :
    confident (findKp upPose rightShoulderName) ∧ confident (findKp upPose rightHipName) ∧
    confident (findKp upPose rightKneeName) ∧ confident (findKp upPose rightAnkleName) := by
  have e1 : findKp upPose rightShoulderName = some upShoulderKp := rfl
  have e2 : findKp upPose rightHipName = some upHipKp := rfl
  have e3 : findKp upPose rightKneeName = some upKneeKp := rfl
  have e4 : findKp upPose rightAnkleName = some upAnkleKp := rfl
  rw [e1, e2, e3, e4]
  refine ⟨?_, ?_, ?_, ?_⟩ <;>
    norm_num [confident, KEYPOINT_CONFIDENCE_THRESHOLD, upShoulderKp, upHipKp,
      upKneeKp, upAnkleKp]

theorem downPose_confident :
    confident (findKp downPose rightShoulderName) ∧
    confident (findKp downPose rightHipName) ∧
    confident (findKp downPose rightKneeName) ∧
    confident (findKp downPose rightAnkleName) := by
  have e1 : findKp downPose rightShoulderName = some downShoulderKp := rfl
  have e2 : findKp downPose rightHipName = some downHipKp := rfl
  have e3 : findKp downPose rightKneeName = some downKneeKp := rfl
  have e4 : findKp downPose rightAnkleName = some downAnkleKp := rfl
  rw [e1, e2, e3, e4]
  refine ⟨?_, ?_, ?_, ?_⟩ <;>
    norm_num [confident, KEYPOINT_CONFIDENCE_THRESHOLD, downShoulderKp, downHipKp,
      downKneeKp, downAnkleKp]

/-- C2 witness: the concrete upright pose with shoulder y 0 and ankle y
100 gets the default record. -/
theorem C2_upright_pose_default_witness :
    analyzeHipDrive upPose = ⟨0, some DEFAULT_HIP_DRIVE⟩ :=
  C2_upright_pose_default upPose 0 100 upPose_confident rfl rfl (by norm_num)

/-- C1 (amended): analyzeHipDrive returns the 0.3 default whenever a
landmark is missing or sub-threshold, and also whenever
shoulder.y − ankle.y ≤ 0 — which includes every upright pose, not only
the zero-height case ankleY == shoulderY; the weighted combination
0.5·progress + 0.3·(trunkAngle/180) + 0.2·(1−misalignment), guarded by
safeScore, is evaluated only when all four landmarks are confident and
shoulder.y > ankle.y. -/
theorem C1_hip_drive_amended (pose : Pose) :
    (¬ (confident (findKp pose rightShoulderName) ∧
        confident (findKp pose rightHipName) ∧ confident (findKp pose rightKneeName) ∧
        confident (findKp pose rightAnkleName)) →
      analyzeHipDrive pose = ⟨0, some DEFAULT_HIP_DRIVE⟩) ∧
    (∀ sy ay : ℝ, (confident (findKp pose rightShoulderName) ∧
        confident (findKp pose rightHipName) ∧ confident (findKp pose rightKneeName) ∧
        confident (findKp pose rightAnkleName)) →
      ky (findKp pose rightShoulderName) = some sy →
      ky (findKp pose rightAnkleName) = some ay → sy - ay ≤ 0 →
      analyzeHipDrive pose = ⟨0, some DEFAULT_HIP_DRIVE⟩) ∧
    (∀ sy ay hy hx ax : ℝ, (confident (findKp pose rightShoulderName) ∧
        confident (findKp pose rightHipName) ∧ confident (findKp pose rightKneeName) ∧
        confident (findKp pose rightAnkleName)) →
      ky (findKp pose rightShoulderName) = some sy →
      ky (findKp pose rightAnkleName) = some ay →
      ky (findKp pose rightHipName) = some hy →
      kx (findKp pose rightHipName) = some hx →
      kx (findKp pose rightAnkleName) = some ax →
      0 < sy - ay → pose.width ≠ 0 →
      analyzeHipDrive pose =
        ⟨calculateAngle (findKp pose rightShoulderName) (findKp pose rightHipName)
            (findKp pose rightKneeName),
         some (safeScore (some (max 0 (min 1 ((ay - hy) / (ay - sy))) * 0.5 +
            max 0 (min 1 (calculateAngle (findKp pose rightShoulderName)
              (findKp pose rightHipName) (findKp pose rightKneeName) / 180)) * 0.3 +
            (1 - |hx - ax| / pose.width) * 0.2)) DEFAULT_HIP_DRIVE)⟩) :=
  ⟨hipDrive_not_confident pose,
   fun sy ay hconf hsy hay hle => hipDrive_nonpos_height pose sy ay hconf hsy hay hle,
   fun sy ay hy hx ax hconf hsy hay hhy hhx hax hpos hw =>
     hipDrive_formula_case pose sy ay hy hx ax hconf hsy hay hhy hhx hax hpos hw⟩

/-- C1 witness: the inverted pose (shoulder y 100, ankle y 0) reaches the
weighted formula and scores 0.75 with trunk angle 180. -/
theorem C1_hip_drive_amended_witness :
    analyzeHipDrive downPose = ⟨180, some 0.75⟩ := by
  have h3 := (C1_hip_drive_amended downPose).2.2 100 0 50 0 0 downPose_confident
    rfl rfl rfl rfl rfl (by norm_num) (by norm_num [downPose])
  have hv : validatePoints (some downShoulderKp) (some downHipKp) (some downKneeKp) := by
    unfold downShoulderKp downHipKp downKneeKp
    apply validatePoints_mk
    · rw [sqrt_eval (by norm_num : (0:ℝ) ≤ 50) (by norm_num)]
      norm_num
    · rw [sqrt_eval (by norm_num : (0:ℝ) ≤ 30) (by norm_num)]
      norm_num
  have hang : calculateAngle (findKp downPose rightShoulderName)
      (findKp downPose rightHipName) (findKp downPose rightKneeName) = 180 := by
    have e1 : findKp downPose rightShoulderName = some downShoulderKp := rfl
    have e2 : findKp downPose rightHipName = some downHipKp := rfl
    have e3 : findKp downPose rightKneeName = some downKneeKp := rfl
    rw [e1, e2, e3]
    unfold downShoulderKp downHipKp downKneeKp at hv ⊢
    rw [calculateAngle_mk hv]
    exact angleCore_vertical_down (by norm_num) (by norm_num)
  rw [h3, hang]
  have e4 : ((0:ℝ) - 50) / (0 - 100) = 1 / 2 := by norm_num
  rw [e4, min_eq_right (by norm_num : (1:ℝ) / 2 ≤ 1),
    max_eq_right (by norm_num : (0:ℝ) ≤ 1 / 2)]
  have e5 : (180:ℝ) / 180 = 1 := by norm_num
  rw [e5, min_self, max_eq_right (by norm_num : (0:ℝ) ≤ 1)]
  have e6 : |(0:ℝ) - 0| / downPose.width = 0 := by norm_num [downPose]
  rw [e6]
  rw [safeScore_of_valid _ (by norm_num) (by norm_num)]
  norm_num

/-- C1 counterexample: a fully confident upright pose with ankleY 100 and
shoulderY 0 (nonzero total height, finite combination) gets the 0.3
default while the spec formula evaluates to 0.75, so the score does not
equal the claimed formula. -/
theorem C1_hip_drive_cex :
    (confident (findKp upPose rightShoulderName) ∧ confident (findKp upPose rightHipName) ∧
      confident (findKp upPose rightKneeName) ∧ confident (findKp upPose rightAnkleName)) ∧
    ky (findKp upPose rightShoulderName) = some 0 ∧
    ky (findKp upPose rightAnkleName) = some 100 ∧
    hipDriveSpecFormula 0 50 100 0 0 100 (calculateAngle (findKp upPose rightShoulderName)
      (findKp upPose rightHipName) (findKp upPose rightKneeName)) = 3 / 4 ∧
    (analyzeHipDrive upPose).score = some DEFAULT_HIP_DRIVE ∧
    (3 / 4 : ℝ) ≠ DEFAULT_HIP_DRIVE := by
  have hv : validatePoints (some upShoulderKp) (some upHipKp) (some upKneeKp) := by
    unfold upShoulderKp upHipKp upKneeKp
    apply validatePoints_mk
    · rw [sqrt_eval (by norm_num : (0:ℝ) ≤ 50) (by norm_num)]
      norm_num
    · rw [sqrt_eval (by norm_num : (0:ℝ) ≤ 30) (by norm_num)]
      norm_num
  have hang : calculateAngle (findKp upPose rightShoulderName)
      (findKp upPose rightHipName) (findKp upPose rightKneeName) = 180 := by
    have e1 : findKp upPose rightShoulderName = some upShoulderKp := rfl
    have e2 : findKp upPose rightHipName = some upHipKp := rfl
    have e3 : findKp upPose rightKneeName = some upKneeKp := rfl
    rw [e1, e2, e3]
    unfold upShoulderKp upHipKp upKneeKp at hv ⊢
    rw [calculateAngle_mk hv]
    exact angleCore_vertical_up (by norm_num) (by norm_num)
  have hdef : analyzeHipDrive upPose = ⟨0, some DEFAULT_HIP_DRIVE⟩ :=
    hipDrive_nonpos_height upPose 0 100 upPose_confident rfl rfl (by norm_num)
  refine ⟨upPose_confident, rfl, rfl, ?_, by rw [hdef], ?_⟩
  · unfold hipDriveSpecFormula
    rw [hang]
    have e : ((100:ℝ) - 50) / (100 - 0) = 1 / 2 := by norm_num
    rw [e, min_eq_right (by norm_num : (1:ℝ) / 2 ≤ 1),
      max_eq_right (by norm_num : (0:ℝ) ≤ 1 / 2)]
    norm_num
  · norm_num [DEFAULT_HIP_DRIVE]

end

end SRT
